import Mathlib

/-!
# Verification of the rust-mcp-server protocol dispatch and process bridge

This development gives a shallow embedding, in Lean, of the message-dispatch
and external-process-bridge code of the `rust-mcp-server` repository, and
proves (or refutes) the specification claims about it.

The repository contains several coexisting draft implementations of the same
components; each is embedded under its own name:

* `lineServer`            — the readline-based stdio server (`src/unnamed/part_000`);
* `protocolHandleMessage` — `MCPProtocolHandler.handleMessage` (`src/protocols/mcp.ts`);
* `mcpServerHandle`       — `MCPServer.handleMessage` (`src/mcp/mcp-server.ts`);
* `stdioTransportRecv` / `wsTransportRecv` / `wsSendTargets`
                          — the transports (`src/mcp/mcp-server.ts`,
                            `src/mcp/websocket-transport.ts`);
* `rustBridgeClose`       — the close handler of the line-scanning bridge draft
                            (`src/unnamed/part_007`);
* `bridgeRace` / `bridgeAfterRace`
                          — the spawn/timeout bridge draft (`src/unnamed/part_006`,
                            second variant).

JavaScript values manipulated by this code are modelled by the inductive type
`Json`; the extra constructor `Json.undefined` models the JavaScript value
`undefined` (absent object properties), which `JSON.parse` itself never
produces.  Engine-generated exception texts (`SyntaxError` messages from
`JSON.parse`, `TypeError` messages from property accesses on `undefined`)
are modelled by the constants `syntaxErrorDetail` and `typeErrorDetail`:
only their presence, never their text, is relied on.  JSON numbers are
modelled as integers (the repository's wire traffic uses only integers);
fraction and exponent forms are outside the model.
-/

namespace RustMcp

/-- A JavaScript/JSON value.  `undefined` models the JavaScript `undefined`. -/
inductive Json where
  | undefined
  | null
  | bool (b : Bool)
  | num (n : Int)
  | str (s : String)
  | arr (elems : List Json)
  | obj (fields : List (String × Json))
  deriving Repr, Inhabited

mutual

/-- Structural equality test for `Json` (nested, so written by hand). -/
def Json.beq : Json → Json → Bool
  | .undefined, .undefined => true
  | .null, .null => true
  | .bool a, .bool b => a == b
  | .num a, .num b => a == b
  | .str a, .str b => a == b
  | .arr xs, .arr ys => Json.beqList xs ys
  | .obj xs, .obj ys => Json.beqFields xs ys
  | _, _ => false

/-- Elementwise `Json.beq` on lists. -/
def Json.beqList : List Json → List Json → Bool
  | [], [] => true
  | x :: xs, y :: ys => Json.beq x y && Json.beqList xs ys
  | _, _ => false

/-- Elementwise `Json.beq` on association lists. -/
def Json.beqFields : List (String × Json) → List (String × Json) → Bool
  | [], [] => true
  | (k, v) :: xs, (l, w) :: ys => k == l && Json.beq v w && Json.beqFields xs ys
  | _, _ => false

end

mutual

theorem Json.beq_iff : ∀ a b : Json, Json.beq a b = true ↔ a = b
  | .undefined, b => by cases b <;> simp [Json.beq]
  | .null, b => by cases b <;> simp [Json.beq]
  | .bool a, b => by cases b <;> simp [Json.beq]
  | .num a, b => by cases b <;> simp [Json.beq]
  | .str a, b => by cases b <;> simp [Json.beq]
  | .arr xs, b => by
      cases b <;> simp [Json.beq]
      exact Json.beqList_iff xs _
  | .obj xs, b => by
      cases b <;> simp [Json.beq]
      exact Json.beqFields_iff xs _

theorem Json.beqList_iff : ∀ xs ys : List Json, Json.beqList xs ys = true ↔ xs = ys
  | [], ys => by cases ys <;> simp [Json.beqList]
  | x :: xs, ys => by
      cases ys with
      | nil => simp [Json.beqList]
      | cons y ys =>
        simp [Json.beqList, Json.beq_iff x y, Json.beqList_iff xs ys]

theorem Json.beqFields_iff :
    ∀ xs ys : List (String × Json), Json.beqFields xs ys = true ↔ xs = ys
  | [], ys => by cases ys <;> simp [Json.beqFields]
  | (k, v) :: xs, ys => by
      cases ys with
      | nil => simp [Json.beqFields]
      | cons y ys =>
        obtain ⟨l, w⟩ := y
        simp [Json.beqFields, Json.beq_iff v w, Json.beqFields_iff xs ys, and_assoc]

end

instance : DecidableEq Json := fun a b => decidable_of_iff _ (Json.beq_iff a b)

/-- Property lookup on a JS object built by `JSON.parse`: for duplicate keys
the last occurrence wins, any other receiver yields `undefined`.
(Reading a property of `undefined`/`null` throws in JS; the models below only
use `getField` where the receiver cannot be `undefined`/`null`, and use
`jsAccessOpt` to model the `?.` operator.) -/
def Json.getField (j : Json) (k : String) : Json :=
  match j with
  | .obj fields => fields.foldl (fun acc p => if p.1 = k then p.2 else acc) .undefined
  | _ => .undefined

/-- Optional chaining `x?.k`: `undefined` on a nullish receiver. -/
def jsAccessOpt (j : Json) (k : String) : Json :=
  match j with
  | .undefined => .undefined
  | .null => .undefined
  | j => j.getField k

/-- JavaScript truthiness of a value (NaN is outside the model). -/
def Json.truthy : Json → Bool
  | .undefined => false
  | .null => false
  | .bool b => b
  | .num n => n != 0
  | .str s => !s.data.isEmpty
  | .arr _ => true
  | .obj _ => true

/-- `Array.isArray`. -/
def Json.isArr : Json → Bool
  | .arr _ => true
  | _ => false

/-- `typeof x === "string"` for JSON values. -/
def Json.isStr : Json → Bool
  | .str _ => true
  | _ => false

/-- `typeof x === "object"` for JSON values (arrays and `null` included). -/
def Json.typeofObject : Json → Bool
  | .obj _ => true
  | .arr _ => true
  | .null => true
  | _ => false

/-- Comma join, as `Array.prototype.join(",")` concatenates. -/
def joinComma : List String → String
  | [] => ""
  | [s] => s
  | s :: rest => s ++ "," ++ joinComma rest

mutual

/-- Nesting depth of a value (fuel for the array rendering below). -/
def Json.depth : Json → Nat
  | .arr xs => Json.depthList xs + 1
  | .obj fs => Json.depthFields fs + 1
  | _ => 1

/-- Greatest depth of a list of values. -/
def Json.depthList : List Json → Nat
  | [] => 0
  | x :: xs => max (Json.depth x) (Json.depthList xs)

/-- Greatest depth of an association list's values. -/
def Json.depthFields : List (String × Json) → Nat
  | [] => 0
  | (_, v) :: fs => max (Json.depth v) (Json.depthFields fs)

end

/-- Template-literal rendering of a value (JS string interpolation), with
fuel bounding the recursion into array elements; nullish array elements
render as the empty string, following `Array.prototype.join`. -/
def Json.displayFuel (fuel : Nat) (j : Json) : String :=
  match j, fuel with
  | .undefined, _ => "undefined"
  | .null, _ => "null"
  | .bool true, _ => "true"
  | .bool false, _ => "false"
  | .num n, _ => toString n
  | .str s, _ => s
  | .obj _, _ => "[object Object]"
  | .arr _, 0 => ""
  | .arr xs, fuel + 1 =>
    joinComma (xs.map (fun x =>
      match x with
      | .undefined => ""
      | .null => ""
      | x => Json.displayFuel fuel x))

/-- Template-literal rendering of a value (`Json.depth` bounds the fuel). -/
def Json.display (j : Json) : String := Json.displayFuel j.depth j

/-- Does `pat` occur at the head of `s`? -/
def listIsPre : List Char → List Char → Bool
  | [], _ => true
  | _ :: _, [] => false
  | x :: xs, y :: ys => x == y && listIsPre xs ys

/-- Does `pat` occur anywhere in `s`? -/
def charsIncl (pat : List Char) : List Char → Bool
  | [] => listIsPre pat []
  | c :: rest => listIsPre pat (c :: rest) || charsIncl pat rest

/-- `String.prototype.includes` (substring test). -/
def strIncludes (s pat : String) : Bool := charsIncl pat.data s.data

/-- `String.prototype.split("\n")`. -/
def splitNl : List Char → List (List Char)
  | [] => [[]]
  | c :: rest =>
    let r := splitNl rest
    if c = '\n' then [] :: r
    else
      match r with
      | [] => [[c]]
      | g :: gs => (c :: g) :: gs

/-- `String.prototype.split("\n")` on strings. -/
def jsSplitNewline (s : String) : List String := (splitNl s.data).map String.mk

/-- Leading-whitespace removal. -/
def dropWsLeft : List Char → List Char
  | [] => []
  | c :: cs => if c = ' ' ∨ c = '\t' ∨ c = '\n' ∨ c = '\r' then dropWsLeft cs else c :: cs

/-- `String.prototype.trim`. -/
def jsTrim (s : String) : String :=
  String.mk ((dropWsLeft (dropWsLeft s.data).reverse).reverse)

/-- `String.prototype.startsWith`. -/
def jsStartsWith (s pat : String) : Bool := listIsPre pat.data s.data

/-- `String.prototype.endsWith`. -/
def jsEndsWith (s pat : String) : Bool := listIsPre pat.data.reverse s.data.reverse

/-! ## A JSON parser (model of `JSON.parse`)

Fuel-indexed recursive descent over the character list; `2 * length + 4`
fuel suffices since every two fuel levels consume at least one character. -/

/-- Skip JSON whitespace. -/
def skipWs : List Char → List Char
  | [] => []
  | c :: cs => if c = ' ' ∨ c = '\t' ∨ c = '\n' ∨ c = '\r' then skipWs cs else c :: cs

/-- Consume an expected literal character sequence. -/
def stripLit : List Char → List Char → Option (List Char)
  | [], cs => some cs
  | _ :: _, [] => none
  | t :: ts, c :: cs => if c = t then stripLit ts cs else none

/-- Hexadecimal digit value. -/
def hexVal : Char → Option Nat := fun c =>
  if '0' ≤ c ∧ c ≤ '9' then some (c.toNat - '0'.toNat)
  else if 'a' ≤ c ∧ c ≤ 'f' then some (c.toNat - 'a'.toNat + 10)
  else if 'A' ≤ c ∧ c ≤ 'F' then some (c.toNat - 'A'.toNat + 10)
  else none

/-- Single-character escapes of JSON string literals. -/
def escChar : Char → Option Char := fun e =>
  if e = '"' then some '"'
  else if e = '\\' then some '\\'
  else if e = '/' then some '/'
  else if e = 'n' then some '\n'
  else if e = 't' then some '\t'
  else if e = 'r' then some '\r'
  else if e = 'b' then some (Char.ofNat 8)
  else if e = 'f' then some (Char.ofNat 12)
  else none

/-- Parse the body of a JSON string literal (opening quote already consumed),
returning the decoded characters and the remainder. -/
def parseStrBody : Nat → List Char → Option (List Char × List Char)
  | 0, _ => none
  | _ + 1, [] => none
  | fuel + 1, c :: cs =>
    if c = '"' then some ([], cs)
    else if c = '\\' then
      match cs with
      | [] => none
      | 'u' :: h1 :: h2 :: h3 :: h4 :: cs2 => do
        let a ← hexVal h1
        let b ← hexVal h2
        let c3 ← hexVal h3
        let d ← hexVal h4
        let (s, r) ← parseStrBody fuel cs2
        some (Char.ofNat (a * 4096 + b * 256 + c3 * 16 + d) :: s, r)
      | e :: cs2 => do
        let ec ← escChar e
        let (s, r) ← parseStrBody fuel cs2
        some (ec :: s, r)
    else if c.toNat < 32 then none
    else do
      let (s, r) ← parseStrBody fuel cs
      some (c :: s, r)

/-- Decimal digits to a natural number. -/
def digitsToNat (ds : List Char) : Nat :=
  ds.foldl (fun acc c => acc * 10 + (c.toNat - '0'.toNat)) 0

/-- Parse a JSON number (integer forms only; see the file header). -/
def parseNum : List Char → Option (Json × List Char)
  | '-' :: cs =>
    match cs.span (·.isDigit) with
    | ([], _) => none
    | (ds, rest) => some (.num (-(digitsToNat ds : Int)), rest)
  | cs =>
    match cs.span (·.isDigit) with
    | ([], _) => none
    | (ds, rest) => some (.num (digitsToNat ds), rest)

mutual

/-- Parse one JSON value. -/
def parseVal : Nat → List Char → Option (Json × List Char)
  | 0, _ => none
  | fuel + 1, cs =>
    match skipWs cs with
    | [] => none
    | c :: rest =>
      if c = 'n' then (stripLit ['u', 'l', 'l'] rest).map (fun r => (Json.null, r))
      else if c = 't' then (stripLit ['r', 'u', 'e'] rest).map (fun r => (Json.bool true, r))
      else if c = 'f' then (stripLit ['a', 'l', 's', 'e'] rest).map (fun r => (Json.bool false, r))
      else if c = '"' then (parseStrBody fuel rest).map (fun p => (Json.str (String.mk p.1), p.2))
      else if c = '[' then
        match skipWs rest with
        | ']' :: r2 => some (.arr [], r2)
        | r2 => (parseItems fuel r2).map (fun p => (Json.arr p.1, p.2))
      else if c = '\x7b' then
        match skipWs rest with
        | '\x7d' :: r2 => some (.obj [], r2)
        | r2 => (parseMembers fuel r2).map (fun p => (Json.obj p.1, p.2))
      else if c = '-' ∨ c.isDigit then parseNum (c :: rest)
      else none

/-- Parse the elements of a non-empty JSON array (up to and including `]`). -/
def parseItems : Nat → List Char → Option (List Json × List Char)
  | 0, _ => none
  | fuel + 1, cs => do
    let (v, r) ← parseVal fuel cs
    match skipWs r with
    | ',' :: r2 => do
      let (xs, r3) ← parseItems fuel r2
      some (v :: xs, r3)
    | ']' :: r2 => some ([v], r2)
    | _ => none

/-- Parse the members of a non-empty JSON object (up to and including `}`). -/
def parseMembers : Nat → List Char → Option (List (String × Json) × List Char)
  | 0, _ => none
  | fuel + 1, cs =>
    match skipWs cs with
    | '"' :: r => do
      let (k, r2) ← parseStrBody fuel r
      match skipWs r2 with
      | ':' :: r3 => do
        let (v, r4) ← parseVal fuel r3
        match skipWs r4 with
        | ',' :: r5 => do
          let (xs, r6) ← parseMembers fuel r5
          some ((String.mk k, v) :: xs, r6)
        | '\x7d' :: r5 => some ([(String.mk k, v)], r5)
        | _ => none
      | _ => none
    | _ => none

end

/-- `JSON.parse`: parse one JSON document, requiring only whitespace after it. -/
def Json.parse (s : String) : Option Json :=
  match parseVal (2 * s.length + 4) s.data with
  | some (v, rest) => if skipWs rest = [] then some v else none
  | none => none

/-- Stand-in for an engine-generated `SyntaxError` message of `JSON.parse`
(its exact text is never relied on). -/
def syntaxErrorDetail : String := "Unexpected token in JSON"

/-- Stand-in for an engine-generated `TypeError` message from a property
access on `undefined` (its exact text is never relied on). -/
def typeErrorDetail : String := "Cannot read properties of undefined"

/-! ## Process bridge, line-scanning draft (`src/unnamed/part_007`)

`RustBridge.analyze` of this draft registers a `close` handler on the spawned
process; `rustBridgeClose` is that handler as a function of the exit code and
the accumulated stdout/stderr.  Every path calls `resolve` with a JS object,
modelled as the returned `Json`. -/

/-- The synthetic degraded response object built by the close handler:
one diagnostic, empty suggestions, an explanation string. -/
def degradedResponse (msg expl : String) : Json :=
  .obj
    [("diagnostics",
       .arr [.obj [("message", .str msg), ("severity", .str "error"),
                   ("source", .str "rust-bridge")]]),
     ("suggestions", .arr []),
     ("explanation", .str expl)]

/-- The scan `for (const line of lines) { const trimmed = line.trim();
if (trimmed.startsWith("{") && trimmed.endsWith("}")) ... break }`:
the first line whose trimmed form is brace-delimited. -/
def firstBraceLine (stdout : String) : Option String :=
  ((jsSplitNewline stdout).map jsTrim).find?
    (fun t => jsStartsWith t "\x7b" && jsEndsWith t "\x7d")

/-- The `try` block of the close handler on exit code `0`: scan stdout for a
brace-delimited line, `JSON.parse` it and validate the three required fields.
`.error` carries the message of the exception the block throws. -/
def parseAnalysisStdout (stdout : String) : Except String Json :=
  if stdout.data.isEmpty || (jsTrim stdout).data.isEmpty then
    .error "Empty response from analyzer"
  else
    match firstBraceLine stdout with
    | none => .error "No valid JSON found in analyzer response"
    | some jsonStr =>
      match Json.parse jsonStr with
      | none => .error syntaxErrorDetail
      | some response =>
        if !(response.getField "diagnostics").truthy
            || !(response.getField "suggestions").truthy
            || !(response.getField "explanation").truthy then
          .error "Invalid response structure: missing required fields"
        else if !(response.getField "diagnostics").isArr
            || !(response.getField "suggestions").isArr
            || !(response.getField "explanation").isStr then
          .error "Invalid response structure: incorrect field types"
        else
          .ok response

/-- The close handler of the line-scanning bridge draft: the JS value passed
to `resolve`, as a function of exit code (`none` models a `null` code) and the
accumulated stdout and stderr. -/
def rustBridgeClose (code : Option Int) (stdout stderr : String) : Json :=
  if code ≠ some 0 then
    degradedResponse ("Analysis failed with error: " ++ stderr)
      ("Error during analysis: " ++ stderr)
  else
    match parseAnalysisStdout stdout with
    | .ok response => response
    | .error e =>
      degradedResponse ("Failed to parse analysis response: " ++ e)
        ("Internal error in the analysis service: " ++ e)

/-! ## Process bridge, spawn/timeout draft (`src/unnamed/part_006`, 2nd variant)

This draft races the child's `close` event against a 10-second timer.
`bridgeRace` gives the outcome of `Promise.race(...)​.finally(...)`: the
resolved exit code or the rejection, together with how many times
`child.kill()` and `clearTimeout` were invoked on that path.  `.error`
throughout models a rejection/throw that propagates to the caller of
`analyze`. -/

/-- The timeout used both for `spawn` and for the deadline timer (ms). -/
def bridgeTimeoutMs : Nat := 10000

/-- Which of the raced events fires first. -/
inductive RaceOutcome where
  | exited (code : Option Int)
  | timedOut
  deriving Repr, DecidableEq

/-- Cleanup calls performed on one path through the race. -/
structure BridgeCleanup where
  killCalls : Nat
  clearCalls : Nat
  deriving Repr, DecidableEq

/-- `Promise.race([closePromise, timeoutPromise]).finally(cleanup)`:
on `close`, the handler clears the timer and resolves the code, then the
`finally` kills and clears again; on deadline expiry, the timer callback
kills the child and rejects, then the `finally` kills and clears. -/
def bridgeRace : RaceOutcome → Except String (Option Int) × BridgeCleanup
  | .exited code => (.ok code, ⟨1, 2⟩)
  | .timedOut => (.error "Rust binary process timed out", ⟨2, 1⟩)

/-- Template rendering of the awaited exit code (`null` for a `null` code). -/
def showExitCode : Option Int → String
  | none => "null"
  | some n => toString n

/-- The code after `await Promise.race(...)`: spawn-error check, non-zero
exit check, then `JSON.parse` of the accumulated stdout and the
`typeof`-object check, with the inner catch re-wrapping parse failures. -/
def bridgeAfterRace (processError : Option String) (exitCode : Option Int)
    (stdout stderr : String) : Except String Json :=
  match processError with
  | some msg => .error ("Rust binary process error: " ++ msg)
  | none =>
    if exitCode ≠ some 0 then
      .error ("Rust binary failed with code " ++ showExitCode exitCode ++ ": " ++ stderr)
    else
      match Json.parse stdout with
      | none => .error ("Failed to parse Rust binary output: " ++ syntaxErrorDetail)
      | some response =>
        if !response.truthy || !response.typeofObject then
          .error ("Failed to parse Rust binary output: Invalid response format from Rust binary")
        else
          .ok response

/-- The whole `analyze` of the spawn/timeout draft after the process has been
started: race, then (on a resolved exit code) the error and parsing checks.
The second component records the cleanup calls made by the race. -/
def rustBridgeAnalyzeRace (race : RaceOutcome) (processError : Option String)
    (stdout stderr : String) : Except String Json × BridgeCleanup :=
  match bridgeRace race with
  | (.error e, c) => (.error e, c)
  | (.ok code, c) => (bridgeAfterRace processError code stdout stderr, c)

/-! ## Readline-based stdio server (`src/unnamed/part_000`)

`rl.on("line", ...)` parses the line, dispatches JSON-RPC methods and prints
exactly one JSON response per line; its `catch` turns any exception raised in
the `try` block (a parse failure, or a `TypeError` from the tool-call branch)
into a `-32700` "Parse error" envelope. -/

/-- A `{jsonrpc:"2.0", id, result}` envelope. -/
def rpcOk (id result : Json) : Json :=
  .obj [("jsonrpc", .str "2.0"), ("id", id), ("result", result)]

/-- A `{jsonrpc:"2.0", id, error:{code, message}}` envelope. -/
def rpcErr (id : Json) (code : Int) (msg : String) : Json :=
  .obj [("jsonrpc", .str "2.0"), ("id", id),
        ("error", .obj [("code", .num code), ("message", .str msg)])]

/-- The `-32700` envelope printed by the `catch` handler of the line server. -/
def parseErrorEnvelope (detail : String) : Json :=
  rpcErr .null (-32700) ("Parse error: " ++ detail)

/-- The diagnostic for the simulated missing-semicolon analysis. -/
def missingSemicolonDiag : Json :=
  .obj [("message", .str "expected \x60;\x60, found \x60\x7d\x60"),
        ("severity", .str "error"),
        ("position", .obj [("startLine", .num 3), ("startCharacter", .num 4),
                           ("endLine", .num 3), ("endCharacter", .num 31)])]

/-- The simulated missing-semicolon check shared by the drafts:
`code.includes(...) && code.includes("}") && !code.includes(...)`. -/
def hasMissingSemicolon (code : String) : Bool :=
  strIncludes code "println!(\"Hello, world!\")"
    && strIncludes code "\x7d"
    && !strIncludes code "println!(\"Hello, world!\");"

/-- The `tools/list` result of the line server (four tool descriptors). -/
def lineServerToolsList : Json :=
  .obj [("tools", .arr
    [.obj [("name", .str "rust.analyze"),
           ("description", .str "Analyzes Rust code for errors and warnings"),
           ("inputSchema", .obj
             [("type", .str "object"),
              ("properties", .obj
                [("code", .obj [("type", .str "string"),
                                ("description", .str "The Rust code to analyze")]),
                 ("fileName", .obj [("type", .str "string"),
                                    ("description", .str "The name of the source file")])]),
              ("required", .arr [.str "code"])])],
     .obj [("name", .str "rust.suggest"),
           ("description", .str "Suggests improvements for Rust code"),
           ("inputSchema", .obj
             [("type", .str "object"),
              ("properties", .obj
                [("code", .obj [("type", .str "string"),
                                ("description", .str "The Rust code to improve")]),
                 ("fileName", .obj [("type", .str "string"),
                                    ("description", .str "The name of the source file")])]),
              ("required", .arr [.str "code"])])],
     .obj [("name", .str "rust.explain"),
           ("description", .str "Explains Rust code patterns and concepts"),
           ("inputSchema", .obj
             [("type", .str "object"),
              ("properties", .obj
                [("code", .obj [("type", .str "string"),
                                ("description", .str "The Rust code to explain")]),
                 ("fileName", .obj [("type", .str "string"),
                                    ("description", .str "The name of the source file")])]),
              ("required", .arr [.str "code"])])],
     .obj [("name", .str "rust.history"),
           ("description", .str "Retrieves history of previous analyses"),
           ("inputSchema", .obj
             [("type", .str "object"),
              ("properties", .obj
                [("limit", .obj [("type", .str "integer"),
                                 ("description",
                                  .str "Maximum number of history entries to retrieve")])])])]])]

/-- The fixed `rust.suggest` result shared by the drafts. -/
def simulatedSuggestions : Json :=
  .arr [.obj
    [("title", .str "Use a more descriptive variable name"),
     ("replacements", .arr [.obj
       [("text", .str "result"),
        ("position", .obj [("startLine", .num 2), ("startCharacter", .num 8),
                           ("endLine", .num 2), ("endCharacter", .num 13)])]])]]

/-- The fixed `rust.explain` explanation text of the line server. -/
def lineServerExplanation : String :=
  "This Rust code defines a main function that prints \"Hello, world!\" to the console. The main function is the entry point of a Rust program. The println! macro is used to print text to the standard output."

/-- The `try`-block dispatch of the line server on a successfully decoded
message; `.error` models an exception reaching the enclosing `catch`
(`counter` is the current value of the module-level `messageId`). -/
def lineServerDispatch (counter : Nat) (msg : Json) : Except String Json :=
  if msg = .null then .error typeErrorDetail
  else if msg.getField "jsonrpc" = .str "2.0" then
    let id := msg.getField "id"
    let method := msg.getField "method"
    if method = .str "initialize" then
      .ok (rpcOk id (.obj
        [("serverInfo", .obj [("name", .str "rust-mcp-server"), ("version", .str "1.0.0")]),
         ("capabilities", .obj [("tools", .bool true), ("resources", .bool false)])]))
    else if method = .str "tools/list" then
      .ok (rpcOk id lineServerToolsList)
    else if method = .str "resources/list" then
      .ok (rpcOk id (.obj [("resources", .arr [])]))
    else if method = .str "tools/call" then
      let toolName := jsAccessOpt (msg.getField "params") "name"
      let toolParams := jsAccessOpt (msg.getField "params") "params"
      if toolName = .str "rust.analyze" then
        match toolParams with
        | .undefined => .error typeErrorDetail
        | .null => .error typeErrorDetail
        | tp =>
          match tp.getField "code" with
          | .str code =>
            .ok (rpcOk id (.obj [("diagnostics",
              if hasMissingSemicolon code then .arr [missingSemicolonDiag] else .arr [])]))
          | _ => .error typeErrorDetail
      else if toolName = .str "rust.suggest" then
        .ok (rpcOk id (.obj [("suggestions", simulatedSuggestions)]))
      else if toolName = .str "rust.explain" then
        .ok (rpcOk id (.obj [("explanation", .str lineServerExplanation)]))
      else if toolName = .str "rust.history" then
        .ok (rpcOk id (.obj [("history", .arr [])]))
      else
        .ok (rpcErr id (-32601) ("Method not found: " ++ toolName.display))
    else if method = .str "ping" then
      .ok (rpcOk id (.obj []))
    else
      .ok (rpcErr id (-32601) ("Method not found: " ++ method.display))
  else
    .ok (.obj [("id", .num counter),
               ("error", .obj [("message", .str "Invalid JSON-RPC message")])])

/-- One turn of the line server: the single JSON value printed in response to
a raw input line. -/
def lineServer (counter : Nat) (line : String) : Json :=
  match Json.parse line with
  | none => parseErrorEnvelope syntaxErrorDetail
  | some msg =>
    match lineServerDispatch counter msg with
    | .ok response => response
    | .error e => parseErrorEnvelope e

/-! ## `MCPProtocolHandler.handleMessage` (`src/protocols/mcp.ts`)

Modelled for a handler constructed with no binary path (`rustBinaryPath = ""`,
the constructor default), so the three `analyze/suggest/explain` operations
take their simulated-response branches and the whole dispatch is pure.
`.error` models an exception escaping `handleMessage` (a `TypeError` from an
unguarded property access). -/

/-- `analyzeRustCode` with no binary path: the simulated analysis response. -/
def analyzeRustCodeSim (code : String) : Json :=
  if hasMissingSemicolon code then
    .obj [("success", .bool true), ("diagnostics", .arr [missingSemicolonDiag])]
  else
    .obj [("success", .bool true), ("diagnostics", .arr [])]

/-- `suggestRustImprovements` with no binary path: the fixed suggestions. -/
def suggestRustSim : Json :=
  .obj [("success", .bool true), ("suggestions", simulatedSuggestions)]

/-- `explainRustCode` with no binary path: the fixed explanation text. -/
def explainRustSim : Json :=
  .obj [("success", .bool true), ("explanation", .str
    "This Rust code defines a main function that prints \"Hello, world!\" to the console. \nThe main function is the entry point of a Rust program. The println! macro is used to print text to the standard output.")]

/-- The `getMCPSchema()` value (`src/protocols/schema.ts`): schema version and
the four tool / three resource descriptors.  The long documentation strings,
input schemas and reference-data blobs are elided — no claim examines this
payload — but the names and the overall structure are kept. -/
def mcpSchemaData : Json :=
  .obj [("version", .str "1.0.0"),
        ("tools", .arr [.obj [("name", .str "rust.analyze")],
                        .obj [("name", .str "rust.suggest")],
                        .obj [("name", .str "rust.explain")],
                        .obj [("name", .str "rust.history")]]),
        ("resources", .arr [.obj [("name", .str "Rust Common Errors")],
                            .obj [("name", .str "Rust Best Practices")],
                            .obj [("name", .str "Rust Lifetime Reference")]])]

/-- The `llm.generateTestCases` canned result. -/
def generateTestCasesText : String :=
  "Here are some test cases for your function:\n\n#[test]\nfn test_main() \x7b\n    // This is a simple test case\n    assert!(true);\n\x7d"

/-- `MCPProtocolHandler.handleMessage` (no binary path configured). -/
def protocolHandleMessage (msg : Json) : Except String Json :=
  if msg = .null then .error typeErrorDetail
  else if msg.getField "jsonrpc" = .str "2.0" then
    let id := msg.getField "id"
    let method := msg.getField "method"
    if method = .str "initialize" then
      .ok (.obj [("id", id), ("result", .obj
        [("serverInfo", .obj [("name", .str "rust-mcp-server"), ("version", .str "1.0.0")]),
         ("capabilities", .obj [("rustAnalysis", .bool true),
                                ("rustSuggestions", .bool true),
                                ("rustExplanations", .bool true)])])])
    else if method = .str "tools/call" then
      let toolName := jsAccessOpt (msg.getField "params") "name"
      let toolParams := jsAccessOpt (msg.getField "params") "params"
      if toolName = .str "rust.analyze" then
        match toolParams with
        | .undefined => .error typeErrorDetail
        | .null => .error typeErrorDetail
        | tp =>
          match tp.getField "code" with
          | .str code => .ok (.obj [("id", id), ("result", analyzeRustCodeSim code)])
          | _ => .error typeErrorDetail
      else if toolName = .str "rust.suggest" then
        match toolParams with
        | .undefined => .error typeErrorDetail
        | .null => .error typeErrorDetail
        | _ => .ok (.obj [("id", id), ("result", suggestRustSim)])
      else if toolName = .str "rust.explain" then
        match toolParams with
        | .undefined => .error typeErrorDetail
        | .null => .error typeErrorDetail
        | _ => .ok (.obj [("id", id), ("result", explainRustSim)])
      else if toolName = .str "llm.enhanceErrorExplanation" then
        match toolParams with
        | .undefined => .error typeErrorDetail
        | .null => .error typeErrorDetail
        | tp => .ok (.obj [("id", id), ("result", .str
            ("This is a simulated LLM explanation for the error: \""
              ++ (tp.getField "error").display
              ++ "\". In Rust, statements need to end with a semicolon. You\x27re missing a semicolon at the end of the println! macro call."))])
      else if toolName = .str "llm.generateTestCases" then
        .ok (.obj [("id", id), ("result", .str generateTestCasesText)])
      else
        .ok (.obj [("id", id), ("error", .obj
          [("code", .num (-32601)),
           ("message", .str ("Method not found: " ++ toolName.display))])])
    else
      .ok (.obj [("id", if id.truthy then id else .null),
                 ("error", .obj
                   [("code", .num (-32601)),
                    ("message", .str ("Method not found: " ++ method.display))])])
  else
    let ty := msg.getField "type"
    if ty = .str "mcp.schema" then
      .ok (.obj [("type", .str "mcp.schema.result"), ("data", mcpSchemaData)])
    else if ty = .str "rust.analyze" then
      match msg.getField "data" with
      | .undefined => .error typeErrorDetail
      | .null => .error typeErrorDetail
      | data =>
        match data.getField "code" with
        | .str code =>
          .ok (.obj [("type", .str "rust.analysis.result"), ("data", analyzeRustCodeSim code)])
        | _ => .error typeErrorDetail
    else if ty = .str "rust.suggest" then
      .ok (.obj [("type", .str "rust.suggestion.result"), ("data", suggestRustSim)])
    else if ty = .str "rust.explain" then
      .ok (.obj [("type", .str "rust.explanation.result"), ("data", explainRustSim)])
    else
      .ok (.obj [("type", .str "error"),
                 ("data", .obj [("message", .str ("Unsupported message type: " ++ ty.display))])])

/-! ## `MCPServer` (`src/mcp/mcp-server.ts`)

The dispatcher holds a registry of tools and resources; its `handleMessage`
wraps the whole dispatch in `try/catch` and renders every caught exception as
a `-32603` error envelope.  Tool handlers are the ones registered by
`RustMCPServer.registerTools`, parameterised here by the four underlying
handler implementations (the spec treats the analysis logic itself as an
external collaborator). -/

/-- A registered tool: `{name, description, handler}`. -/
structure ToolReg where
  name : String
  description : String
  handler : Json → Except String Json

/-- A registered resource: `{name, description, data}`. -/
structure ResourceReg where
  name : String
  description : String
  data : Json

/-- The JS object stored for a resource, as returned by `resources/read`. -/
def ResourceReg.toJson (r : ResourceReg) : Json :=
  .obj [("name", .str r.name), ("description", .str r.description), ("data", r.data)]

/-- The `try` block of `MCPServer.handleMessage`; `.error` is a thrown
exception (caught by the surrounding `catch`). -/
def mcpServerTry (tools : List ToolReg) (resources : List ResourceReg)
    (msg : Json) : Except String Json :=
  if msg = .null then .error typeErrorDetail
  else
    let id := msg.getField "id"
    let method := msg.getField "method"
    if method = .str "initialize" then
      .ok (rpcOk id (.obj
        [("protocolVersion", .str "0.1.0"),
         ("serverInfo", .obj [("name", .str "Rust MCP Server"), ("version", .str "1.0.0")]),
         ("capabilities", .obj [("tools", .bool (!tools.isEmpty)),
                                ("resources", .bool (!resources.isEmpty))])]))
    else if method = .str "tools/call" then
      let toolName := jsAccessOpt (msg.getField "params") "name"
      match toolName with
      | .str nm =>
        match tools.find? (fun t => t.name == nm) with
        | some tool => do
          let result ← tool.handler (jsAccessOpt (msg.getField "params") "params")
          .ok (rpcOk id result)
        | none => .error ("Tool not found: " ++ nm)
      | other => .error ("Tool not found: " ++ other.display)
    else if method = .str "resources/read" then
      let resourceName := jsAccessOpt (msg.getField "params") "name"
      match resourceName with
      | .str nm =>
        match resources.find? (fun r => r.name == nm) with
        | some resource => .ok (rpcOk id resource.toJson)
        | none => .error ("Resource not found: " ++ nm)
      | other => .error ("Resource not found: " ++ other.display)
    else if method = .str "tools/list" then
      .ok (rpcOk id (.obj [("tools", .arr (tools.map (fun t =>
        .obj [("name", .str t.name), ("description", .str t.description)])))]))
    else if method = .str "resources/list" then
      .ok (rpcOk id (.obj [("resources", .arr (resources.map (fun r =>
        .obj [("name", .str r.name), ("description", .str r.description)])))]))
    else if method = .str "ping" then
      .ok (rpcOk id (.obj []))
    else
      .error ("Unknown method: " ++ method.display)

/-- `MCPServer.handleMessage`: the `try` block plus the `catch` that renders
any caught exception as a `-32603` envelope keyed by `message.id`.  The outer
`.error` is only reached when the `catch` itself throws (null message). -/
def mcpServerHandle (tools : List ToolReg) (resources : List ResourceReg)
    (msg : Json) : Except String Json :=
  match mcpServerTry tools resources msg with
  | .ok r => .ok r
  | .error e =>
    if msg = .null then .error typeErrorDetail
    else .ok (rpcErr (msg.getField "id") (-32603)
      (if e.data.isEmpty then "Internal error" else e))

/-! ### Zod input schemas (`src/protocols/schema.ts`)

`z.object` rejects non-objects, requires the listed keys with the listed
types, treats `.optional()` keys as allowed to be absent, and strips unknown
keys from its output.  ZodError texts are library-generated and modelled by
`zodErrorDetail`. -/

/-- Stand-in for a library-generated ZodError message. -/
def zodErrorDetail : String := "Zod validation error"

/-- `z.number().int().min(0)`. -/
def zodNonNegInt (j : Json) : Bool :=
  match j with
  | .num n => decide (0 ≤ n)
  | _ => false

/-- `z.string().optional()`: absent or a string. -/
def zodOptStr (j : Json) : Bool := j == .undefined || j.isStr

/-- The optional `position` object of `RustAnalysisRequestSchema`. -/
def zodOptPosition (j : Json) : Bool :=
  match j with
  | .undefined => true
  | .obj _ => zodNonNegInt (j.getField "line") && zodNonNegInt (j.getField "character")
  | _ => false

/-- `RustAnalysisRequestSchema.parseAsync`: `code` a required string,
`fileName` an optional string, `position` an optional `{line, character}`
pair of non-negative integers; unknown keys are stripped. -/
def zodAnalysisValidate (params : Json) : Except String Json :=
  match params with
  | .obj _ =>
    match params.getField "code" with
    | .str c =>
      let fn := params.getField "fileName"
      let pos := params.getField "position"
      if zodOptStr fn && zodOptPosition pos then
        .ok (.obj (("code", Json.str c)
          :: (if fn == .undefined then [] else [("fileName", fn)])
          ++ (if pos == .undefined then [] else
            [("position", .obj [("line", pos.getField "line"),
                                ("character", pos.getField "character")])])))
      else .error zodErrorDetail
    | _ => .error zodErrorDetail
  | _ => .error zodErrorDetail

/-- `RustSuggestionRequestSchema.parseAsync`: `code` required string,
`fileName` optional string. -/
def zodSuggestionValidate (params : Json) : Except String Json :=
  match params with
  | .obj _ =>
    match params.getField "code" with
    | .str c =>
      let fn := params.getField "fileName"
      if zodOptStr fn then
        .ok (.obj (("code", Json.str c)
          :: (if fn == .undefined then [] else [("fileName", fn)])))
      else .error zodErrorDetail
    | _ => .error zodErrorDetail
  | _ => .error zodErrorDetail

/-- `RustExplanationRequestSchema.parseAsync`: `code` required string,
`fileName` and `focus` optional strings. -/
def zodExplanationValidate (params : Json) : Except String Json :=
  match params with
  | .obj _ =>
    match params.getField "code" with
    | .str c =>
      let fn := params.getField "fileName"
      let fo := params.getField "focus"
      if zodOptStr fn && zodOptStr fo then
        .ok (.obj (("code", Json.str c)
          :: (if fn == .undefined then [] else [("fileName", fn)])
          ++ (if fo == .undefined then [] else [("focus", fo)])))
      else .error zodErrorDetail
    | _ => .error zodErrorDetail
  | _ => .error zodErrorDetail

/-- `HistoryRequestSchema.parseAsync`: `limit` an optional integer in 1..50. -/
def zodHistoryValidate (params : Json) : Except String Json :=
  match params with
  | .obj _ =>
    let lim := params.getField "limit"
    match lim with
    | .undefined => .ok (.obj [])
    | .num n => if 1 ≤ n ∧ n ≤ 50 then .ok (.obj [("limit", .num n)]) else .error zodErrorDetail
    | _ => .error zodErrorDetail
  | _ => .error zodErrorDetail

/-- The tail of every registered handler:
`if (!result.success) throw new Error(result.error?.message || "Unknown error");
return result.data;`. -/
def wrapHandlerResult (result : Json) : Except String Json :=
  match result with
  | .null => .error typeErrorDetail
  | .undefined => .error typeErrorDetail
  | _ =>
    if !(result.getField "success").truthy then
      .error (let m := jsAccessOpt (result.getField "error") "message"
              if m.truthy then m.display else "Unknown error")
    else .ok (result.getField "data")

/-- One registered tool of `RustMCPServer.registerTools`: validate the params
against the declared schema, run the underlying implementation, re-shape. -/
def mkTool (name description : String) (validate : Json → Except String Json)
    (impl : Json → Except String Json) : ToolReg :=
  ⟨name, description, fun params => do
    let v ← validate params
    let result ← impl v
    wrapHandlerResult result⟩

/-- The four tools registered by `RustMCPServer.registerTools`, parameterised
by the underlying handler implementations.  Tool descriptions are shortened
to their first sentence (only `tools/list` echoes them; no claim examines
their text). -/
def rustMcpTools (analyzeImpl suggestImpl explainImpl historyImpl :
    Json → Except String Json) : List ToolReg :=
  [mkTool "rust.analyze"
     "Analyzes Rust code for errors, warnings, and potential issues using rust-analyzer."
     zodAnalysisValidate analyzeImpl,
   mkTool "rust.suggest"
     "Provides recommendations for improving Rust code, even if it\x27s already correct."
     zodSuggestionValidate suggestImpl,
   mkTool "rust.explain"
     "Provides detailed explanations of Rust code patterns, errors, and concepts."
     zodExplanationValidate explainImpl,
   ⟨"rust.history",
    "Retrieves the history of previous Rust code analyses.",
    fun params => do
      let v ← zodHistoryValidate params
      let result ← historyImpl (v.getField "limit")
      wrapHandlerResult result⟩]

/-- The three resources registered by `RustMCPServer.registerTools`
(`src/protocols/schema.ts`); the reference-text data blobs are elided — no
claim examines them. -/
def rustMcpResources : List ResourceReg :=
  [⟨"Rust Common Errors",
    "Reference guide to common Rust compiler errors and how to fix them", .obj []⟩,
   ⟨"Rust Best Practices",
    "Guide to idiomatic Rust coding practices and patterns", .obj []⟩,
   ⟨"Rust Lifetime Reference",
    "Guide to understanding Rust\x27s lifetime system", .obj []⟩]

/-! ## Transports -/

/-- What a transport does with one raw inbound frame. -/
inductive TransportEvent where
  | message (j : Json)
  | errored (e : String)
  deriving Repr, DecidableEq

/-- `StdioServerTransport.start`'s stdin data handler: parse, then either
`onmessage(parsed)` or `onerror(error)` — no reply is written on a parse
failure. -/
def stdioTransportRecv (data : String) : TransportEvent :=
  match Json.parse data with
  | some j => .message j
  | none => .errored syntaxErrorDetail

/-- `WebSocketServerTransport.start`'s per-connection message handler:
parse, then either `onmessage(parsed)` or `onerror(error)` — no reply is
sent on a parse failure. -/
def wsTransportRecv (data : String) : TransportEvent :=
  match Json.parse data with
  | some j => .message j
  | none => .errored syntaxErrorDetail

/-- The `MCPServer.start` wiring for one inbound frame: the response the
server sends back over the transport, if any (`none` when the transport
reported a parse error, or when `handleMessage` rejected). -/
def serverWireResponse (handle : Json → Except String Json)
    (recv : String → TransportEvent) (data : String) : Option Json :=
  match recv data with
  | .errored _ => none
  | .message j =>
    match handle j with
    | .ok r => some r
    | .error _ => none

/-- One connected WebSocket client as seen by `send` (readyState 1 = OPEN). -/
structure WsClient where
  id : Nat
  readyState : Nat
  deriving Repr, DecidableEq

/-- `WebSocketServerTransport.send`: serialize once, write to every client
whose socket is OPEN, silently skip the rest.  There is no originating-
connection parameter: every outgoing message is broadcast. -/
def wsSend (clients : List WsClient) (message : Json) : List (Nat × Json) :=
  (clients.filter (fun c => c.readyState == 1)).map (fun c => (c.id, message))

/-! ## Shape predicates and helper lemmas -/

/-- An RPC-shape response body as emitted by `MCPProtocolHandler`:
`{id, result}` or `{id, error}`. -/
def rpcShaped (j : Json) : Prop :=
  (∃ id x, j = .obj [("id", id), ("result", x)]) ∨
  (∃ id e, j = .obj [("id", id), ("error", e)])

/-- A legacy-shape response body: `{type, data}`. -/
def legacyShaped (j : Json) : Prop :=
  ∃ t d, j = .obj [("type", .str t), ("data", d)]

/-- A full RPC envelope as `MCPServer` emits it: `{jsonrpc:"2.0", id,
result|error}` (this one does carry the dialect tag the spec requires of
RPC-shape responses, which `MCPProtocolHandler`'s responses lack). -/
def mcpRpcEnvelope (j : Json) : Prop :=
  (∃ id x, j = .obj [("jsonrpc", .str "2.0"), ("id", id), ("result", x)]) ∨
  (∃ id e, j = .obj [("jsonrpc", .str "2.0"), ("id", id), ("error", e)])

/-- Following the spec's words ("the parser scans line-by-line for the first
line that is syntactically a complete JSON object and parses that"): the
first line of stdout whose trimmed content parses as a JSON object.  This is
the spec-side definition used to compare against the code's `firstBraceLine`
heuristic. -/
def specFirstJsonObjectLine (stdout : String) : Option Json :=
  ((jsSplitNewline stdout).map (fun l => Json.parse (jsTrim l))).findSome?
    (fun p => match p with
      | some (Json.obj fields) => some (Json.obj fields)
      | _ => none)

/-! ## Concrete messages and bridge outputs used by the claim theorems -/

/-- The initialize request of the spec's scenario.  The spec's data model
names the dialect tag `version`; on the wire (and throughout the code) the
field is spelled `jsonrpc`. -/
def initializeLine : String := "\x7b\"jsonrpc\":\"2.0\",\"id\":1,\"method\":\"initialize\"\x7d"

/-- The initialize request as a decoded message. -/
def initializeMsg : Json :=
  .obj [("jsonrpc", .str "2.0"), ("id", .num 1), ("method", .str "initialize")]

/-- `MCPProtocolHandler`'s response to `initializeMsg`. -/
def protInitResponse : Json :=
  .obj [("id", .num 1), ("result", .obj
    [("serverInfo", .obj [("name", .str "rust-mcp-server"), ("version", .str "1.0.0")]),
     ("capabilities", .obj [("rustAnalysis", .bool true), ("rustSuggestions", .bool true),
                            ("rustExplanations", .bool true)])])]

/-- An RPC request whose id is the (falsy) number `0` and whose method is
unknown. -/
def zeroIdMsg : Json :=
  .obj [("jsonrpc", .str "2.0"), ("id", .num 0), ("method", .str "nope")]

/-- A legacy-shape `{type, data}` request. -/
def legacyAnalyzeMsg : Json :=
  .obj [("type", .str "rust.analyze"),
        ("data", .obj [("code", .str "fn main() \x7b\x7d")])]

/-- An RPC request with an unknown method. -/
def bogusMethodMsg : Json := .obj [("id", .num 7), ("method", .str "bogus/method")]

/-- A `tools/call` request naming an unregistered tool. -/
def unknownToolCall : Json :=
  .obj [("id", .num 2), ("method", .str "tools/call"),
        ("params", .obj [("name", .str "no.such.tool")])]

/-- A `tools/call` request for `rust.analyze` whose params fail the schema
(`code` is missing). -/
def invalidAnalyzeCall : Json :=
  .obj [("id", .num 3), ("method", .str "tools/call"),
        ("params", .obj [("name", .str "rust.analyze"), ("params", .obj [])])]

/-- A placeholder underlying-handler implementation. -/
def trivialImpl : Json → Except String Json := fun _ => .ok .null

/-- A well-formed analyzer response line. -/
def goodLine : String :=
  "\x7b\"diagnostics\":[],\"suggestions\":[],\"explanation\":\"ok\"\x7d"

/-- `goodLine` parsed. -/
def goodResponse : Json :=
  .obj [("diagnostics", .arr []), ("suggestions", .arr []), ("explanation", .str "ok")]

/-- Analyzer stdout with leading log noise before the JSON line. -/
def noisyStdout : String := "INFO: starting analyzer\n" ++ goodLine

/-- Analyzer stdout whose first brace-delimited line is not valid JSON,
followed by a well-formed JSON line. -/
def trickyStdout : String := "\x7boops\x7d\n" ++ goodLine

/-- An analyzer response whose `explanation` is a string, but empty. -/
def emptyExplanationStdout : String :=
  "\x7b\"diagnostics\":[],\"suggestions\":[],\"explanation\":\"\"\x7d"

/-- A string with a nonempty first component is nonempty. -/
theorem isEmpty_append_eq_false (a b : String) (ha : a.data ≠ []) :
    (a ++ b).data.isEmpty = false := by
  rw [String.data_append, List.isEmpty_eq_false]
  intro h
  exact ha (List.append_eq_nil.mp h).1

/-- The degraded response object has exactly one diagnostic carrying the
failure message (severity `error`, source `rust-bridge`), an empty
suggestions array, and the explanation string. -/
theorem degradedResponse_fields (msg expl : String) :
    (degradedResponse msg expl).getField "suggestions" = .arr [] ∧
    (degradedResponse msg expl).getField "explanation" = .str expl ∧
    (degradedResponse msg expl).getField "diagnostics"
      = .arr [.obj [("message", .str msg), ("severity", .str "error"),
                    ("source", .str "rust-bridge")]] :=
  ⟨rfl, rfl, rfl⟩

/-- Template rendering of a string value is the string itself. -/
theorem Json.display_str (s : String) : (Json.str s).display = s := rfl

/-- Every successful result of `MCPServer`'s `try` block is an
`rpcOk`-shaped envelope keyed by `message.id`: each branch returns
`{jsonrpc:"2.0", id: message.id, result}`. -/
theorem mcpServerTry_ok_envelope (tools : List ToolReg) (resources : List ResourceReg)
    (msg v : Json) (h : mcpServerTry tools resources msg = .ok v) :
    ∃ x, v = rpcOk (msg.getField "id") x := by
  unfold mcpServerTry at h
  simp only [Bind.bind, Except.bind] at h
  repeat' split at h
  all_goals try cases h
  all_goals exact ⟨_, rfl⟩

/-! ## Claim C1 -/

/-- C1 (corrected): for every exit delivered to the line-scanning bridge's
close handler — any exit code and any stdout/stderr contents — the handler
resolves with a structurally valid outcome: either the validated parsed
response, or a Degraded response carrying exactly one synthetic diagnostic
whose message encodes the failure cause, an empty suggestions array, and an
explanation string.  (The spawn/timeout bridge draft, by contrast, throws —
see the counterexample.) -/
theorem c1_close_handler_never_throws (code : Option Int) (stdout stderr : String) :
    (∃ v, code = some 0 ∧ parseAnalysisStdout stdout = .ok v ∧
      rustBridgeClose code stdout stderr = v) ∨
    (∃ msg expl,
      rustBridgeClose code stdout stderr = degradedResponse msg expl ∧
      (rustBridgeClose code stdout stderr).getField "suggestions" = .arr [] ∧
      (rustBridgeClose code stdout stderr).getField "explanation" = .str expl ∧
      ∃ d, (rustBridgeClose code stdout stderr).getField "diagnostics" = .arr [d] ∧
        d.getField "message" = .str msg) := by
  by_cases h : code = some 0
  · subst h
    cases hp : parseAnalysisStdout stdout with
    | ok v =>
      left
      exact ⟨v, rfl, rfl, by simp [rustBridgeClose, hp]⟩
    | error e =>
      right
      have hc : rustBridgeClose (some 0) stdout stderr
          = degradedResponse ("Failed to parse analysis response: " ++ e)
              ("Internal error in the analysis service: " ++ e) := by
        simp [rustBridgeClose, hp]
      refine ⟨"Failed to parse analysis response: " ++ e,
              "Internal error in the analysis service: " ++ e, hc, ?_, ?_, ?_⟩
      · rw [hc]; exact (degradedResponse_fields _ _).1
      · rw [hc]; exact (degradedResponse_fields _ _).2.1
      · exact ⟨.obj [("message", .str ("Failed to parse analysis response: " ++ e)),
                     ("severity", .str "error"), ("source", .str "rust-bridge")],
               by rw [hc]; exact (degradedResponse_fields _ _).2.2, rfl⟩
  · right
    have hc : rustBridgeClose code stdout stderr
        = degradedResponse ("Analysis failed with error: " ++ stderr)
            ("Error during analysis: " ++ stderr) := by
      simp [rustBridgeClose, h]
    refine ⟨"Analysis failed with error: " ++ stderr,
            "Error during analysis: " ++ stderr, hc, ?_, ?_, ?_⟩
    · rw [hc]; exact (degradedResponse_fields _ _).1
    · rw [hc]; exact (degradedResponse_fields _ _).2.1
    · exact ⟨.obj [("message", .str ("Analysis failed with error: " ++ stderr)),
                   ("severity", .str "error"), ("source", .str "rust-bridge")],
             by rw [hc]; exact (degradedResponse_fields _ _).2.2, rfl⟩

/-- C1 counterexample: in the spawn/timeout bridge draft, a spawn failure
(`error` event, exit code `null`) makes `analyze` throw
`"Rust binary process error: ..."` to its caller instead of resolving with a
Degraded outcome; a non-zero exit likewise throws. -/
theorem c1_spawn_error_throws :
    (rustBridgeAnalyzeRace (.exited none) (some "spawn rust-analyzer ENOENT") "" "").1
      = .error "Rust binary process error: spawn rust-analyzer ENOENT" ∧
    (rustBridgeAnalyzeRace (.exited (some 1)) none "" "boom").1
      = .error "Rust binary failed with code 1: boom" :=
  ⟨rfl, rfl⟩

/-! ## Claim C4 -/

/-- C4 (corrected): on deadline expiry of the fixed 10-second timer the
spawn/timeout bridge draft kills the process (twice: timer callback and the
`finally` cleanup) and cancels the timer, but it does not return a Degraded
outcome: it rejects with the error `"Rust binary process timed out"` — a
message that does not contain `"Analysis timed out"` — and on every path the
process is killed and the timer is cancelled at least once. -/
theorem c4_timeout_kills_and_rejects :
    bridgeTimeoutMs = 10000 ∧
    (∀ (pe : Option String) (so se : String),
      rustBridgeAnalyzeRace .timedOut pe so se
        = (.error "Rust binary process timed out", ⟨2, 1⟩)) ∧
    strIncludes "Rust binary process timed out" "Analysis timed out" = false ∧
    (∀ (race : RaceOutcome) (pe : Option String) (so se : String),
      1 ≤ (rustBridgeAnalyzeRace race pe so se).2.killCalls ∧
      1 ≤ (rustBridgeAnalyzeRace race pe so se).2.clearCalls) := by
  refine ⟨rfl, fun pe so se => rfl, rfl, fun race pe so se => ?_⟩
  cases race <;> exact ⟨by simp [rustBridgeAnalyzeRace, bridgeRace],
                        by simp [rustBridgeAnalyzeRace, bridgeRace]⟩

/-- C4 counterexample: at the timeout the bridge's result is a rejection
carrying `"Rust binary process timed out"`, not a Degraded outcome, and the
promised text `"Analysis timed out"` occurs nowhere in it. -/
theorem c4_no_degraded_timeout_outcome :
    (rustBridgeAnalyzeRace .timedOut none "" "").1
      = .error "Rust binary process timed out" ∧
    strIncludes "Rust binary process timed out" "Analysis timed out" = false ∧
    ∀ msg expl, (rustBridgeAnalyzeRace .timedOut none "" "").1
      ≠ .ok (degradedResponse msg expl) := by
  refine ⟨rfl, rfl, fun msg expl h => ?_⟩
  exact absurd h (by simp [rustBridgeAnalyzeRace, bridgeRace])

/-! ## Claim C10 -/

/-- C10 (confirmed): `WebSocketServerTransport.send` broadcasts each outgoing
message to exactly the clients whose socket is OPEN (readyState 1), silently
skipping the rest; in particular with two OPEN connections, a response is
delivered to both, regardless of which connection originated the request
(`send` has no originating-connection parameter at all). -/
theorem c10_send_broadcasts_to_open_clients (clients : List WsClient) (message : Json) :
    (∀ c ∈ clients, c.readyState = 1 → (c.id, message) ∈ wsSend clients message) ∧
    (∀ p ∈ wsSend clients message,
      p.2 = message ∧ ∃ c ∈ clients, c.readyState = 1 ∧ c.id = p.1) ∧
    wsSend [⟨1, 1⟩, ⟨2, 1⟩] message = [(1, message), (2, message)] := by
  refine ⟨?_, ?_, rfl⟩
  · intro c hc h1
    simp only [wsSend, List.mem_map, List.mem_filter]
    exact ⟨c, ⟨hc, by simp [h1]⟩, rfl⟩
  · intro p hp
    simp only [wsSend, List.mem_map, List.mem_filter] at hp
    obtain ⟨c, ⟨hc, hopen⟩, rfl⟩ := hp
    exact ⟨rfl, c, hc, by simpa using hopen, rfl⟩

/-- C10 witness: with two OPEN connections, the second client receives the
response to a message that arrived on the first. -/
theorem c10_witness :
    (2, Json.null) ∈ wsSend [⟨1, 1⟩, ⟨2, 1⟩] Json.null :=
  (c10_send_broadcasts_to_open_clients [⟨1, 1⟩, ⟨2, 1⟩] Json.null).1 ⟨2, 1⟩
    (by decide) rfl

/-! ## Claim C2 -/

/-- C2 (corrected): only the readline-based stdio server answers a non-JSON
input line with the `{jsonrpc:"2.0", id:null, error:{code:-32700,
message:"Parse error: <detail>"}}` envelope; the `StdioServerTransport` and
the WebSocket transport route the parse failure to their `onerror` callback
and send no response at all. -/
theorem c2_parse_error_envelope (counter : Nat) (line : String)
    (tools : List ToolReg) (resources : List ResourceReg)
    (h : Json.parse line = none) :
    (lineServer counter line).getField "id" = .null ∧
    ((lineServer counter line).getField "error").getField "code" = .num (-32700) ∧
    (∃ detail, ((lineServer counter line).getField "error").getField "message"
      = .str ("Parse error: " ++ detail)) ∧
    serverWireResponse (mcpServerHandle tools resources) stdioTransportRecv line = none ∧
    serverWireResponse (mcpServerHandle tools resources) wsTransportRecv line = none := by
  have hl : lineServer counter line = parseErrorEnvelope syntaxErrorDetail := by
    simp [lineServer, h]
  refine ⟨by rw [hl]; rfl, by rw [hl]; rfl, ⟨syntaxErrorDetail, by rw [hl]; rfl⟩, ?_, ?_⟩
  · simp [serverWireResponse, stdioTransportRecv, h]
  · simp [serverWireResponse, wsTransportRecv, h]

/-- C2 witness: the envelope facts at the concrete invalid input. -/
theorem c2_witness :
    (lineServer 1 "\x7bnot json").getField "id" = .null ∧
    ((lineServer 1 "\x7bnot json").getField "error").getField "code" = .num (-32700) :=
  ⟨(c2_parse_error_envelope 1 "\x7bnot json" [] [] rfl).1,
   (c2_parse_error_envelope 1 "\x7bnot json" [] [] rfl).2.1⟩

/-- C2 counterexample: on the `StdioServerTransport` and WebSocket transports
an invalid-JSON frame produces an `onerror` event and no response — not the
claimed `-32700` envelope. -/
theorem c2_transports_send_no_reply :
    stdioTransportRecv "\x7bnot json" = .errored syntaxErrorDetail ∧
    wsTransportRecv "\x7bnot json" = .errored syntaxErrorDetail ∧
    serverWireResponse (mcpServerHandle [] []) stdioTransportRecv "\x7bnot json" = none ∧
    serverWireResponse (mcpServerHandle [] []) wsTransportRecv "\x7bnot json" = none :=
  ⟨rfl, rfl, rfl, rfl⟩

/-! ## Claim C9 -/

/-- C9 (corrected): for the initialize request, the line server's result has
`serverInfo.name` and `capabilities.tools = true`, and so does the
`MCPServer` dispatcher's (whatever the underlying handler implementations,
since its four tools are registered); but `MCPProtocolHandler`'s result,
while carrying `serverInfo.name`, has no `tools` key in its capabilities at
all. -/
theorem c9_initialize_results :
    ((lineServer 1 initializeLine).getField "id" = .num 1 ∧
     (((lineServer 1 initializeLine).getField "result").getField "serverInfo").getField "name"
       = .str "rust-mcp-server" ∧
     (((lineServer 1 initializeLine).getField "result").getField "capabilities").getField "tools"
       = .bool true) ∧
    (∀ a b c d : Json → Except String Json,
      mcpServerHandle (rustMcpTools a b c d) rustMcpResources initializeMsg
        = .ok (rpcOk (.num 1) (.obj
            [("protocolVersion", .str "0.1.0"),
             ("serverInfo", .obj [("name", .str "Rust MCP Server"), ("version", .str "1.0.0")]),
             ("capabilities", .obj [("tools", .bool true), ("resources", .bool true)])]))) ∧
    (protocolHandleMessage initializeMsg = .ok protInitResponse ∧
     ((protInitResponse.getField "result").getField "serverInfo").getField "name"
       = .str "rust-mcp-server" ∧
     ((protInitResponse.getField "result").getField "capabilities").getField "tools"
       = .undefined) := by
  refine ⟨⟨rfl, rfl, rfl⟩, fun a b c d => rfl, rfl, rfl, rfl⟩

/-- C9 witness: the `MCPServer` conjunct applied at a concrete handler
implementation. -/
theorem c9_witness :
    mcpServerHandle (rustMcpTools trivialImpl trivialImpl trivialImpl trivialImpl)
        rustMcpResources initializeMsg
      = .ok (rpcOk (.num 1) (.obj
          [("protocolVersion", .str "0.1.0"),
           ("serverInfo", .obj [("name", .str "Rust MCP Server"), ("version", .str "1.0.0")]),
           ("capabilities", .obj [("tools", .bool true), ("resources", .bool true)])])) :=
  c9_initialize_results.2.1 trivialImpl trivialImpl trivialImpl trivialImpl

/-- C9 counterexample: `MCPProtocolHandler`'s initialize result does not make
`result.capabilities.tools` equal `true` — the key is absent. -/
theorem c9_missing_tools_capability :
    protocolHandleMessage initializeMsg = .ok protInitResponse ∧
    ((protInitResponse.getField "result").getField "capabilities").getField "tools" = .undefined ∧
    ((protInitResponse.getField "result").getField "capabilities").getField "tools"
      ≠ .bool true :=
  ⟨rfl, rfl, by decide⟩

/-! ## Claim C6 -/

/-- C6 (corrected): for an RPC request whose method is none of the built-ins,
the line server and `MCPProtocolHandler` answer with error code exactly
`-32601` and message `"Method not found: <method>"`; the `MCPServer`
dispatcher instead throws `"Unknown method: <method>"` and its catch renders
that as code `-32603` — the message still contains the method name, but the
code is not `-32601` and the wording differs.  (`resources/read` is excluded
here because `MCPServer` treats it as a further built-in.) -/
theorem c6_unknown_method (msg : Json) (name : String) (counter : Nat)
    (tools : List ToolReg) (resources : List ResourceReg)
    (hnn : msg ≠ .null)
    (hj : msg.getField "jsonrpc" = .str "2.0")
    (hm : msg.getField "method" = .str name)
    (h1 : name ≠ "initialize") (h2 : name ≠ "tools/list")
    (h3 : name ≠ "resources/list") (h4 : name ≠ "tools/call")
    (h5 : name ≠ "ping") (h6 : name ≠ "resources/read") :
    lineServerDispatch counter msg
      = .ok (rpcErr (msg.getField "id") (-32601) ("Method not found: " ++ name)) ∧
    protocolHandleMessage msg
      = .ok (.obj [("id", if (msg.getField "id").truthy then msg.getField "id" else .null),
                   ("error", .obj [("code", .num (-32601)),
                                   ("message", .str ("Method not found: " ++ name))])]) ∧
    mcpServerHandle tools resources msg
      = .ok (rpcErr (msg.getField "id") (-32603) ("Unknown method: " ++ name)) := by
  refine ⟨?_, ?_, ?_⟩
  · simp [lineServerDispatch, hnn, hj, hm, h1, h2, h3, h4, h5, Json.display_str, rpcErr]
  · simp [protocolHandleMessage, hnn, hj, hm, h1, h4, Json.display_str]
  · have hTry : mcpServerTry tools resources msg = .error ("Unknown method: " ++ name) := by
      simp [mcpServerTry, hnn, hm, h1, h2, h3, h4, h5, h6, Json.display_str]
    have hne : ("Unknown method: " ++ name).data.isEmpty = false :=
      isEmpty_append_eq_false _ _ (by decide)
    simp [mcpServerHandle, hTry, hnn, hne]

/-- C6 witness: the three dispatchers at the concrete unknown method
`"bogus/method"` with id 7. -/
theorem c6_witness :
    lineServerDispatch 1 (.obj [("jsonrpc", .str "2.0"), ("id", .num 7),
                                ("method", .str "bogus/method")])
      = .ok (rpcErr (.num 7) (-32601) "Method not found: bogus/method") :=
  (c6_unknown_method (.obj [("jsonrpc", .str "2.0"), ("id", .num 7),
      ("method", .str "bogus/method")]) "bogus/method" 1 [] []
    (by decide) rfl rfl (by decide) (by decide) (by decide) (by decide) (by decide)
    (by decide)).1

/-- C6 counterexample: the `MCPServer` dispatcher answers an unknown method
with code `-32603` (not `-32601`) and a message that is not of the form
`"Method not found: <method>"`. -/
theorem c6_mcp_server_wrong_code :
    mcpServerHandle (rustMcpTools trivialImpl trivialImpl trivialImpl trivialImpl)
        rustMcpResources bogusMethodMsg
      = .ok (rpcErr (.num 7) (-32603) "Unknown method: bogus/method") ∧
    ((-32603 : Int) ≠ -32601) ∧
    strIncludes "Unknown method: bogus/method" "Method not found:" = false :=
  ⟨rfl, by decide, rfl⟩

/-! ## Claim C7 -/

/-- C7 (corrected): for a `tools/call` naming an unregistered tool, the line
server and `MCPProtocolHandler` answer with code exactly `-32601` and message
`"Method not found: <toolName>"` (which contains the tool name); the
`MCPServer` dispatcher instead throws `"Tool not found: <toolName>"`, which
its catch renders with code `-32603` — the message contains the tool name
but the code is not `-32601`. -/
theorem c7_unknown_tool (msg : Json) (tname : String) (counter : Nat)
    (a b c d : Json → Except String Json)
    (hnn : msg ≠ .null)
    (hj : msg.getField "jsonrpc" = .str "2.0")
    (hm : msg.getField "method" = .str "tools/call")
    (hn : jsAccessOpt (msg.getField "params") "name" = .str tname)
    (h1 : tname ≠ "rust.analyze") (h2 : tname ≠ "rust.suggest")
    (h3 : tname ≠ "rust.explain") (h4 : tname ≠ "rust.history")
    (h5 : tname ≠ "llm.enhanceErrorExplanation") (h6 : tname ≠ "llm.generateTestCases") :
    lineServerDispatch counter msg
      = .ok (rpcErr (msg.getField "id") (-32601) ("Method not found: " ++ tname)) ∧
    protocolHandleMessage msg
      = .ok (.obj [("id", msg.getField "id"),
                   ("error", .obj [("code", .num (-32601)),
                                   ("message", .str ("Method not found: " ++ tname))])]) ∧
    mcpServerHandle (rustMcpTools a b c d) rustMcpResources msg
      = .ok (rpcErr (msg.getField "id") (-32603) ("Tool not found: " ++ tname)) := by
  have e1 : (("rust.analyze" : String) == tname) = false :=
    beq_eq_false_iff_ne.mpr (Ne.symm h1)
  have e2 : (("rust.suggest" : String) == tname) = false :=
    beq_eq_false_iff_ne.mpr (Ne.symm h2)
  have e3 : (("rust.explain" : String) == tname) = false :=
    beq_eq_false_iff_ne.mpr (Ne.symm h3)
  have e4 : (("rust.history" : String) == tname) = false :=
    beq_eq_false_iff_ne.mpr (Ne.symm h4)
  refine ⟨?_, ?_, ?_⟩
  · have hmi : Json.str "tools/call" ≠ Json.str "initialize" := by decide
    simp [lineServerDispatch, hnn, hj, hm, hn, h1, h2, h3, h4, Json.display_str]
  · simp [protocolHandleMessage, hnn, hj, hm, hn, h1, h2, h3, h5, h6, Json.display_str]
  · have hTry : mcpServerTry (rustMcpTools a b c d) rustMcpResources msg
        = .error ("Tool not found: " ++ tname) := by
      simp [mcpServerTry, hnn, hm, hn, rustMcpTools, mkTool, List.find?, e1, e2, e3, e4]
    have hne : ("Tool not found: " ++ tname).data.isEmpty = false :=
      isEmpty_append_eq_false _ _ (by decide)
    simp [mcpServerHandle, hTry, hnn, hne]

/-- C7 witness: the three dispatchers at the concrete unregistered tool
`"no.such.tool"`. -/
theorem c7_witness :
    lineServerDispatch 1 (.obj [("jsonrpc", .str "2.0"), ("id", .num 2),
        ("method", .str "tools/call"),
        ("params", .obj [("name", .str "no.such.tool")])])
      = .ok (rpcErr (.num 2) (-32601) "Method not found: no.such.tool") :=
  (c7_unknown_tool (.obj [("jsonrpc", .str "2.0"), ("id", .num 2),
      ("method", .str "tools/call"),
      ("params", .obj [("name", .str "no.such.tool")])]) "no.such.tool" 1
    trivialImpl trivialImpl trivialImpl trivialImpl
    (by decide) rfl rfl rfl (by decide) (by decide) (by decide) (by decide)
    (by decide) (by decide)).1

/-- C7 counterexample: the `MCPServer` dispatcher answers a `tools/call` for
an unregistered tool with code `-32603`, not the claimed `-32601` (the
message does contain the tool name). -/
theorem c7_mcp_server_wrong_code :
    mcpServerHandle (rustMcpTools trivialImpl trivialImpl trivialImpl trivialImpl)
        rustMcpResources unknownToolCall
      = .ok (rpcErr (.num 2) (-32603) "Tool not found: no.such.tool") ∧
    ((-32603 : Int) ≠ -32601) ∧
    strIncludes "Tool not found: no.such.tool" "no.such.tool" = true :=
  ⟨rfl, by decide, rfl⟩

/-! ## Claim C8 -/

/-- C8 (corrected): for a `tools/call` that resolves to the registered
`rust.analyze` tool, the schema validation runs as the first step of the
registered handler itself; when it fails, the `MCPServer` dispatcher's catch
surfaces the failure as a generic `-32603` internal-error envelope carrying
the validation message — not as an InvalidParams (`-32602`) error — and the
underlying analysis implementation is never invoked: the response is the
same whatever implementation is registered (it does not occur in the
right-hand side). -/
theorem c8_validation_failure (analyzeImpl suggestImpl explainImpl historyImpl :
      Json → Except String Json)
    (msg params : Json) (e : String)
    (hnn : msg ≠ .null)
    (hm : msg.getField "method" = .str "tools/call")
    (hname : jsAccessOpt (msg.getField "params") "name" = .str "rust.analyze")
    (hp : jsAccessOpt (msg.getField "params") "params" = params)
    (hval : zodAnalysisValidate params = .error e)
    (hne : e.data.isEmpty = false) :
    mcpServerHandle (rustMcpTools analyzeImpl suggestImpl explainImpl historyImpl)
        rustMcpResources msg
      = .ok (rpcErr (msg.getField "id") (-32603) e) := by
  have hTry : mcpServerTry (rustMcpTools analyzeImpl suggestImpl explainImpl historyImpl)
      rustMcpResources msg = .error e := by
    simp [mcpServerTry, hnn, hm, hname, hp, hval, rustMcpTools, mkTool, List.find?,
          Bind.bind, Except.bind]
  simp [mcpServerHandle, hTry, hnn, hne]

/-- C8 witness: the schema-invalid call (missing `code`) at a concrete
implementation, yielding the `-32603` envelope with the validation message. -/
theorem c8_witness :
    mcpServerHandle (rustMcpTools trivialImpl trivialImpl trivialImpl trivialImpl)
        rustMcpResources invalidAnalyzeCall
      = .ok (rpcErr (.num 3) (-32603) zodErrorDetail) :=
  c8_validation_failure trivialImpl trivialImpl trivialImpl trivialImpl
    invalidAnalyzeCall (.obj []) zodErrorDetail
    (by decide) rfl rfl rfl rfl (by decide)

/-- C8 counterexample: a schema-invalid `tools/call` for `rust.analyze` is
answered with error code `-32603` (InternalError), not an InvalidParams
(`-32602`) protocol error as the claim states. -/
theorem c8_wrong_error_code :
    mcpServerHandle (rustMcpTools
        (fun _ => .ok (.obj [("success", .bool true), ("data", .str "ran")]))
        trivialImpl trivialImpl trivialImpl) rustMcpResources invalidAnalyzeCall
      = .ok (rpcErr (.num 3) (-32603) zodErrorDetail) ∧
    ((-32603 : Int) ≠ -32602) :=
  ⟨rfl, by decide⟩

/-! ## Claim C5 -/

/-- C5 (corrected): on exit code 0 the line-scanning bridge picks the first
line whose trimmed form starts with a brace and ends with a brace — not the
first line that is syntactically valid JSON — and parses exactly that line:
when that line parses to an object whose `diagnostics` and `suggestions` are
(truthy) arrays and whose `explanation` is a truthy string, the invocation
resolves with that object; on every parse-path failure it resolves with a
Degraded response whose message is `"Failed to parse analysis response:
<detail>"`; and leading non-brace noise lines are skipped. -/
theorem c5_line_scan :
    (∀ (stdout stderr line : String) (v : Json),
      stdout.data.isEmpty = false →
      (jsTrim stdout).data.isEmpty = false →
      firstBraceLine stdout = some line →
      Json.parse line = some v →
      (v.getField "diagnostics").truthy = true →
      (v.getField "suggestions").truthy = true →
      (v.getField "explanation").truthy = true →
      (v.getField "diagnostics").isArr = true →
      (v.getField "suggestions").isArr = true →
      (v.getField "explanation").isStr = true →
      rustBridgeClose (some 0) stdout stderr = v) ∧
    (∀ (stdout stderr e : String),
      parseAnalysisStdout stdout = .error e →
      rustBridgeClose (some 0) stdout stderr
        = degradedResponse ("Failed to parse analysis response: " ++ e)
            ("Internal error in the analysis service: " ++ e)) ∧
    rustBridgeClose (some 0) noisyStdout "" = goodResponse := by
  refine ⟨?_, ?_, rfl⟩
  · intro stdout stderr line v hne hnt hfl hp hd hs he hd2 hs2 he2
    have hok : parseAnalysisStdout stdout = .ok v := by
      simp [parseAnalysisStdout, hne, hnt, hfl, hp, hd, hs, he, hd2, hs2, he2]
    simp [rustBridgeClose, hok]
  · intro stdout stderr e hErr
    simp [rustBridgeClose, hErr]

/-- C5 witness: leading log noise before the JSON line still parses (the
success conjunct applied at `noisyStdout`). -/
theorem c5_witness :
    rustBridgeClose (some 0) noisyStdout "" = goodResponse :=
  c5_line_scan.1 noisyStdout "" goodLine goodResponse
    rfl rfl rfl rfl rfl rfl rfl rfl rfl rfl

/-- C5 counterexample: `trickyStdout`'s first *syntactically valid* JSON
object line is `goodLine` (with all required fields well-typed), so the claim
predicts a Success carrying it; but the close handler picks the earlier
brace-delimited noise line `"{oops}"`, fails to parse it, and degrades.
Moreover an `explanation` that is a string but empty — a string per the
claim — is also rejected (the code requires truthiness, not just the type). -/
theorem c5_brace_scan_defeats_claim :
    specFirstJsonObjectLine trickyStdout = some goodResponse ∧
    (goodResponse.getField "diagnostics").isArr = true ∧
    (goodResponse.getField "suggestions").isArr = true ∧
    (goodResponse.getField "explanation").isStr = true ∧
    rustBridgeClose (some 0) trickyStdout "" ≠ goodResponse ∧
    rustBridgeClose (some 0) trickyStdout ""
      = degradedResponse ("Failed to parse analysis response: " ++ syntaxErrorDetail)
          ("Internal error in the analysis service: " ++ syntaxErrorDetail) ∧
    rustBridgeClose (some 0) emptyExplanationStdout ""
      = degradedResponse
          "Failed to parse analysis response: Invalid response structure: missing required fields"
          "Internal error in the analysis service: Invalid response structure: missing required fields" :=
  ⟨rfl, rfl, rfl, rfl, by decide, rfl, rfl⟩

/-! ## Claim C3 -/

/-- C3 (corrected): `MCPProtocolHandler` follows the dialect family of the
triggering request — a legacy `{type, data}` request gets a `{type, data}`
response, an RPC-shape request gets an `{id, result|error}` response, though
one carrying no `jsonrpc`/`version` dialect tag — and the RPC id round-trips
unchanged (numeric versus string type preserved, since the very value is
reused), except that a falsy id (the number 0, the empty string, or an
absent id) may be replaced by `null` in the unknown-method error branch
(`message.id || null`).  The `MCPServer` dispatcher does not preserve
dialect at all: every response it emits, also to a legacy `{type, data}`
request, is a full RPC envelope `{jsonrpc:"2.0", id, result|error}` (never
`{type, data}`), with `id` preserved unchanged. -/
theorem c3_dialect_and_id_roundtrip :
    (∀ msg r : Json, protocolHandleMessage msg = .ok r →
      (msg.getField "jsonrpc" = .str "2.0" →
        rpcShaped r ∧ r.getField "jsonrpc" = .undefined ∧
        (r.getField "id" = msg.getField "id" ∨
          ((msg.getField "id").truthy = false ∧ r.getField "id" = .null))) ∧
      (msg.getField "jsonrpc" ≠ .str "2.0" → legacyShaped r)) ∧
    (∀ (tools : List ToolReg) (resources : List ResourceReg) (msg r : Json),
      mcpServerHandle tools resources msg = .ok r →
      mcpRpcEnvelope r ∧ r.getField "jsonrpc" = .str "2.0" ∧
      r.getField "id" = msg.getField "id" ∧ ¬ legacyShaped r) := by
  constructor
  · intro msg r h
    by_cases hn : msg = .null
    · simp only [protocolHandleMessage, if_pos hn] at h
      cases h
    · simp only [protocolHandleMessage, if_neg hn] at h
      by_cases hj : msg.getField "jsonrpc" = .str "2.0"
      · rw [if_pos hj] at h
        refine ⟨fun _ => ?_, fun hq => absurd hj hq⟩
        repeat' split at h
        all_goals try cases h
        all_goals try exact ⟨Or.inl ⟨_, _, rfl⟩, rfl, Or.inl rfl⟩
        all_goals try exact ⟨Or.inr ⟨_, _, rfl⟩, rfl, Or.inl rfl⟩
        all_goals rename_i ht
        all_goals exact ⟨Or.inr ⟨_, _, rfl⟩, rfl, Or.inr ⟨by simpa using ht, rfl⟩⟩
      · rw [if_neg hj] at h
        refine ⟨fun hq => absurd hq hj, fun _ => ?_⟩
        repeat' split at h
        all_goals try cases h
        all_goals exact ⟨_, _, rfl⟩
  · intro tools resources msg r h
    unfold mcpServerHandle at h
    cases hTry : mcpServerTry tools resources msg with
    | ok v =>
      simp only [hTry] at h
      cases h
      obtain ⟨x, rfl⟩ := mcpServerTry_ok_envelope tools resources msg _ hTry
      refine ⟨Or.inl ⟨_, _, rfl⟩, rfl, rfl, ?_⟩
      rintro ⟨t, d, hh⟩
      simp [rpcOk] at hh
    | error e =>
      simp only [hTry] at h
      split at h
      · cases h
      · cases h
        refine ⟨Or.inr ⟨_, _, rfl⟩, rfl, rfl, ?_⟩
        rintro ⟨t, d, hh⟩
        simp [rpcErr] at hh

/-- C3 witness: at the initialize request, `MCPProtocolHandler`'s response is
RPC-shaped (without dialect tag) and the id 1 round-trips. -/
theorem c3_witness :
    rpcShaped protInitResponse ∧ protInitResponse.getField "jsonrpc" = .undefined ∧
    (protInitResponse.getField "id" = initializeMsg.getField "id" ∨
      ((initializeMsg.getField "id").truthy = false ∧
       protInitResponse.getField "id" = .null)) :=
  (c3_dialect_and_id_roundtrip.1 initializeMsg protInitResponse rfl).1 rfl

/-- C3 counterexample: three violations of the original claim at concrete
inputs.  (a) The RPC request with the numeric id `0` and an unknown method is
answered with id `null` — the id does not round-trip unchanged
(`message.id || null` treats the falsy number 0 as absent).  (b) The
`MCPServer` dispatcher answers the legacy `{type, data}` request with a full
RPC-shape `{jsonrpc:"2.0", ...}` error envelope, not a `{type, data}`
response — the response dialect does not match the request's.  (c) The
protocol handler's RPC responses carry no `jsonrpc`/`version` tag, which the
spec requires of RPC-shape responses. -/
theorem c3_dialect_and_id_violations :
    (protocolHandleMessage zeroIdMsg
      = .ok (.obj [("id", .null),
                   ("error", .obj [("code", .num (-32601)),
                                   ("message", .str "Method not found: nope")])]) ∧
     zeroIdMsg.getField "id" = .num 0 ∧
     (Json.null ≠ .num 0)) ∧
    (legacyAnalyzeMsg.getField "type" = .str "rust.analyze" ∧
     legacyAnalyzeMsg.getField "jsonrpc" = .undefined ∧
     mcpServerHandle (rustMcpTools trivialImpl trivialImpl trivialImpl trivialImpl)
         rustMcpResources legacyAnalyzeMsg
       = .ok (rpcErr .undefined (-32603) "Unknown method: undefined") ∧
     (rpcErr .undefined (-32603) "Unknown method: undefined").getField "jsonrpc"
       = .str "2.0" ∧
     ¬ legacyShaped (rpcErr .undefined (-32603) "Unknown method: undefined")) ∧
    (.obj [("id", .null),
           ("error", .obj [("code", .num (-32601)),
                           ("message", .str "Method not found: nope")])]
      : Json).getField "jsonrpc" = .undefined := by
  refine ⟨⟨rfl, rfl, by decide⟩, ⟨rfl, rfl, rfl, rfl, ?_⟩, rfl⟩
  rintro ⟨t, d, hh⟩
  simp [rpcErr] at hh

end RustMcp
